import Mathlib

/-!
Verification of the provider-selection and result-normalization core of the
CodeAnalysisAgent repository (`src/modules/llm_integration.py`).

The embedding models:
* Python JSON values (`Json`) as produced by `json.loads`, with objects as
  ordered association lists (insertion order, duplicate keys collapse to the
  last value as in Python dicts);
* `json.loads` itself (`json_loads`), a strict RFC-8259-style parser with the
  CPython extensions `NaN` / `Infinity` / `-Infinity`; parse failure (any
  exception in Python) is `none`;
* the normalizer `_parse_llm_json`;
* the four provider classes (`MockProvider`, `OpenAIProvider`,
  `AnthropicProvider`, `OllamaProvider`) with the external world (client
  construction success, backend call outcome, environment variables)
  abstracted into an explicit `Env` record, and the observable side effects
  (client construction, network calls) recorded as an event trace;
* the selector `analyze_with_llm`.
-/

namespace CodeAnalysis

/-- A Python JSON value as returned by `json.loads`.  Numbers keep their
source lexeme (the claims never inspect numeric values, only structure),
objects are ordered association lists as Python dicts are. -/
inductive Json where
  | null : Json
  | bool : Bool → Json
  | num : String → Json
  | str : String → Json
  | arr : List Json → Json
  | obj : List (String × Json) → Json

/-- JSON whitespace accepted between tokens by `json.loads`. -/
def isJsonWs (c : Char) : Bool :=
  c = ' ' || c = '\t' || c = '\n' || c = '\r'

/-- Drop leading JSON whitespace. -/
def skipWs : List Char → List Char
  | [] => []
  | c :: cs => if isJsonWs c then skipWs cs else c :: cs

/-- Value of a hexadecimal digit. -/
def hexVal (c : Char) : Option Nat :=
  if '0' ≤ c ∧ c ≤ '9' then some (c.toNat - '0'.toNat)
  else if 'a' ≤ c ∧ c ≤ 'f' then some (c.toNat - 'a'.toNat + 10)
  else if 'A' ≤ c ∧ c ≤ 'F' then some (c.toNat - 'A'.toNat + 10)
  else none

/-- Scan the body of a JSON string literal (opening quote already consumed),
decoding escapes; returns the decoded characters and the rest of the input.
Control characters below U+0020 are rejected (strict mode), as is a `\u`
escape that does not denote a Unicode scalar value. -/
def scanStringBody (fuel : Nat) (acc : List Char) (cs : List Char) :
    Option (List Char × List Char) :=
  match fuel with
  | 0 => none
  | fuel + 1 =>
    match cs with
    | [] => none
    | c :: rest =>
      if c = '"' then some (acc.reverse, rest)
      else if c = '\\' then
        match rest with
        | [] => none
        | e :: rest2 =>
          if e = '"' then scanStringBody fuel ('"' :: acc) rest2
          else if e = '\\' then scanStringBody fuel ('\\' :: acc) rest2
          else if e = '/' then scanStringBody fuel ('/' :: acc) rest2
          else if e = 'b' then scanStringBody fuel ('\x08' :: acc) rest2
          else if e = 'f' then scanStringBody fuel ('\x0c' :: acc) rest2
          else if e = 'n' then scanStringBody fuel ('\n' :: acc) rest2
          else if e = 'r' then scanStringBody fuel ('\r' :: acc) rest2
          else if e = 't' then scanStringBody fuel ('\t' :: acc) rest2
          else if e = 'u' then
            match rest2 with
            | h1 :: h2 :: h3 :: h4 :: rest3 =>
              match hexVal h1, hexVal h2, hexVal h3, hexVal h4 with
              | some a, some b, some c2, some d =>
                let n := ((a * 16 + b) * 16 + c2) * 16 + d
                if n < 0xd800 ∨ (0xdfff < n ∧ n < 0x110000) then
                  scanStringBody fuel (Char.ofNat n :: acc) rest3
                else none
              | _, _, _, _ => none
            | _ => none
          else none
      else if c.toNat < 0x20 then none
      else scanStringBody fuel (c :: acc) rest

/-- Scan a maximal run of decimal digits. -/
def scanDigits : List Char → List Char × List Char
  | [] => ([], [])
  | c :: rest =>
    if c.isDigit then
      let p := scanDigits rest
      (c :: p.1, p.2)
    else ([], c :: rest)

/-- Continue a numeric literal after the integer part: optional fraction and
exponent, per the JSON grammar. -/
def scanFracExp (intPart : List Char) (cs : List Char) :
    Option (String × List Char) :=
  let fr : Option (List Char × List Char) :=
    match cs with
    | '.' :: rest =>
      let p := scanDigits rest
      if p.1 = [] then none else some (intPart ++ '.' :: p.1, p.2)
    | _ => some (intPart, cs)
  match fr with
  | none => none
  | some (p1, cs2) =>
    match cs2 with
    | e :: rest =>
      if e = 'e' ∨ e = 'E' then
        match rest with
        | s :: rest2 =>
          if s = '+' ∨ s = '-' then
            let p := scanDigits rest2
            if p.1 = [] then none
            else some (String.mk (p1 ++ e :: s :: p.1), p.2)
          else
            let p := scanDigits rest
            if p.1 = [] then none
            else some (String.mk (p1 ++ e :: p.1), p.2)
        | [] => none
      else some (String.mk p1, cs2)
    | [] => some (String.mk p1, [])

/-- Scan a JSON numeric literal (leading `-` and first character still in the
input).  The integer part is `0` or a nonzero digit followed by digits, as in
the JSON grammar (`01` is rejected). -/
def scanNumber (cs : List Char) : Option (String × List Char) :=
  let p : List Char × List Char :=
    match cs with
    | '-' :: rest => (['-'], rest)
    | _ => ([], cs)
  match p.2 with
  | [] => none
  | c :: rest =>
    if c = '0' then scanFracExp (p.1 ++ ['0']) rest
    else if c.isDigit then
      let q := scanDigits rest
      scanFracExp (p.1 ++ c :: q.1) q.2
    else none

/-- Insert a field into an ordered association list with Python-dict
semantics: an existing key keeps its position and gets the new value, a new
key is appended. -/
def insertField : List (String × Json) → String → Json → List (String × Json)
  | [], k, v => [(k, v)]
  | (k1, v1) :: rest, k, v =>
    if k1 == k then (k, v) :: rest else (k1, v1) :: insertField rest k v

mutual

/-- Parse one JSON value (leading whitespace allowed); returns the value and
the unconsumed input. -/
def parseValue (fuel : Nat) (cs : List Char) : Option (Json × List Char) :=
  match fuel with
  | 0 => none
  | fuel + 1 =>
    match skipWs cs with
    | [] => none
    | c :: rest =>
      if c = '\x7b' then
        match skipWs rest with
        | '\x7d' :: rest2 => some (Json.obj [], rest2)
        | cs2 => parseMembers fuel cs2 []
      else if c = '[' then
        match skipWs rest with
        | ']' :: rest2 => some (Json.arr [], rest2)
        | cs2 => parseElements fuel cs2 []
      else if c = '"' then
        match scanStringBody (rest.length + 1) [] rest with
        | some (body, rest2) => some (Json.str (String.mk body), rest2)
        | none => none
      else
        match c :: rest with
        | 't' :: 'r' :: 'u' :: 'e' :: rest2 => some (Json.bool true, rest2)
        | 'f' :: 'a' :: 'l' :: 's' :: 'e' :: rest2 => some (Json.bool false, rest2)
        | 'n' :: 'u' :: 'l' :: 'l' :: rest2 => some (Json.null, rest2)
        | 'N' :: 'a' :: 'N' :: rest2 => some (Json.num "NaN", rest2)
        | 'I' :: 'n' :: 'f' :: 'i' :: 'n' :: 'i' :: 't' :: 'y' :: rest2 =>
          some (Json.num "Infinity", rest2)
        | '-' :: 'I' :: 'n' :: 'f' :: 'i' :: 'n' :: 'i' :: 't' :: 'y' :: rest2 =>
          some (Json.num "-Infinity", rest2)
        | cs2 =>
          match scanNumber cs2 with
          | some (lit, rest2) => some (Json.num lit, rest2)
          | none => none

/-- Parse the members of a JSON object after at least one member is known to
follow (the opening brace is consumed and the next token is not a closing
brace). -/
def parseMembers (fuel : Nat) (cs : List Char) (acc : List (String × Json)) :
    Option (Json × List Char) :=
  match fuel with
  | 0 => none
  | fuel + 1 =>
    match skipWs cs with
    | '"' :: rest =>
      match scanStringBody (rest.length + 1) [] rest with
      | some (key, rest2) =>
        match skipWs rest2 with
        | ':' :: rest3 =>
          match parseValue fuel rest3 with
          | some (v, rest4) =>
            let acc2 := insertField acc (String.mk key) v
            match skipWs rest4 with
            | ',' :: rest5 => parseMembers fuel rest5 acc2
            | '\x7d' :: rest5 => some (Json.obj acc2, rest5)
            | _ => none
          | none => none
        | _ => none
      | none => none
    | _ => none

/-- Parse the elements of a JSON array after at least one element is known to
follow. -/
def parseElements (fuel : Nat) (cs : List Char) (acc : List Json) :
    Option (Json × List Char) :=
  match fuel with
  | 0 => none
  | fuel + 1 =>
    match parseValue fuel cs with
    | some (v, rest) =>
      match skipWs rest with
      | ',' :: rest2 => parseElements fuel rest2 (acc ++ [v])
      | ']' :: rest2 => some (Json.arr (acc ++ [v]), rest2)
      | _ => none
    | none => none

end

/-- Model of Python `json.loads` restricted to what the claims need: `some`
on a successful parse, `none` when `json.loads` raises (invalid syntax,
trailing garbage, empty input, or — via fuel exhaustion — a recursion-limit
error, which the caller's `except Exception` treats the same way). -/
def json_loads (s : String) : Option Json :=
  match parseValue (s.length + 2) s.toList with
  | some (j, rest) => if skipWs rest = [] then some j else none
  | none => none

/-! ## The result normalizer `_parse_llm_json` -/

/-- Whether `k` is a key of the association list `d` (Python `k in dict`). -/
def hasKey (d : List (String × Json)) (k : String) : Bool :=
  d.any (fun p => p.1 == k)

/-- The value bound to key `k` in `d`, if any (Python `dict[k]`; well-formed
dicts bind each key once). -/
def lookupKey (d : List (String × Json)) (k : String) : Option Json :=
  (d.find? (fun p => p.1 == k)).map (fun p => p.2)

/-- `dict.setdefault(k, v)`: if `k` is already a key, the dict is unchanged;
otherwise `(k, v)` is appended. -/
def setdefault (d : List (String × Json)) (k : String) (v : Json) :
    List (String × Json) :=
  if hasKey d k then d else d ++ [(k, v)]

/-- The five `setdefault` calls of `_parse_llm_json`, in source order. -/
def ensureRequired (d : List (String × Json)) : List (String × Json) :=
  setdefault
    (setdefault
      (setdefault
        (setdefault
          (setdefault d "summary" (Json.str ""))
          "traceability_matrix" (Json.obj []))
        "missing_requirements" (Json.arr []))
      "suggestions" (Json.arr []))
    "detailed_analysis" (Json.str "")

/-- `_parse_llm_json`: parse the model output; on a mapping, fill the missing
required keys; on a parse failure or a non-mapping value, return the
heuristic fixed result carrying the raw text in `detailed_analysis`. -/
def parse_llm_json (text : String) : Json :=
  match json_loads text with
  | some (Json.obj d) => Json.obj (ensureRequired d)
  | _ =>
    Json.obj
      [("summary", Json.str "Model returned non-JSON output."),
       ("traceability_matrix", Json.obj []),
       ("missing_requirements", Json.arr []),
       ("suggestions",
        Json.arr [Json.str "Ensure the model is instructed to output strict JSON."]),
       ("detailed_analysis", Json.str text)]

/-! ## Providers -/

/-- The fixed dict returned by `MockProvider.analyze`. -/
def mockResult : Json :=
  Json.obj
    [("summary", Json.str "Most requirements appear implemented with minor gaps."),
     ("traceability_matrix",
      Json.obj
        [("R-1", Json.str "IMPLEMENTED"),
         ("R-2", Json.str "PARTIALLY_IMPLEMENTED"),
         ("R-3", Json.str "NOT_IMPLEMENTED")]),
     ("missing_requirements", Json.arr [Json.str "R-3"]),
     ("suggestions",
      Json.arr
        [Json.str "Add comprehensive error handling and unit tests for requirement R-2.",
         Json.str "Implement data validation workflow for R-3."]),
     ("detailed_analysis",
      Json.str "R-1 references found in module A; R-2 partially covered in module B with missing edge cases; R-3 no references found.")]

/-- Outcome of the backend interaction inside a provider's `try` block: the
call raised (timeout, connection refused, non-2xx status via
`raise_for_status`, malformed auth, bad response shape), or it produced the
response text handed to `_parse_llm_json`. -/
inductive CallResult where
  | raises : CallResult
  | returns : String → CallResult

/-- Observable side effects of a provider, for the "no network call /
no client constructed" claims. -/
inductive Event where
  | constructOpenAI : Event
  | constructAnthropic : Event
  | netOpenAI : Event
  | netAnthropic : Event
  | netOllama : Event
deriving DecidableEq, Repr

/-- The external world: whether hosted-client construction succeeds for a
given key, what each backend call does for a given prompt, and the process
environment (`os.getenv(name, "")` semantics: the empty string when unset). -/
structure Env where
  openai_construct_ok : String → Bool
  anthropic_construct_ok : String → Bool
  openai_call : String → CallResult
  anthropic_call : String → CallResult
  ollama_call : String → CallResult
  getenv : String → String

/-- `MockProvider().analyze(prompt)`: the fixed result, no side effects. -/
def MockProvider.analyze (_prompt : String) : Json × List Event :=
  (mockResult, [])

/-- `OpenAIProvider(key).analyze(prompt)`: construction failure leaves the
client `None` and `analyze` degrades to mock; otherwise the backend call is
made and a raise degrades to mock for that call. -/
def OpenAIProvider.analyze (env : Env) (key : String) (prompt : String) :
    Json × List Event :=
  if env.openai_construct_ok key then
    match env.openai_call prompt with
    | CallResult.returns text =>
      (parse_llm_json text, [Event.constructOpenAI, Event.netOpenAI])
    | CallResult.raises =>
      ((MockProvider.analyze prompt).1, [Event.constructOpenAI, Event.netOpenAI])
  else
    ((MockProvider.analyze prompt).1, [Event.constructOpenAI])

/-- `AnthropicProvider(key).analyze(prompt)`, same shape as OpenAI. -/
def AnthropicProvider.analyze (env : Env) (key : String) (prompt : String) :
    Json × List Event :=
  if env.anthropic_construct_ok key then
    match env.anthropic_call prompt with
    | CallResult.returns text =>
      (parse_llm_json text, [Event.constructAnthropic, Event.netAnthropic])
    | CallResult.raises =>
      ((MockProvider.analyze prompt).1, [Event.constructAnthropic, Event.netAnthropic])
  else
    ((MockProvider.analyze prompt).1, [Event.constructAnthropic])

/-- `OllamaProvider().analyze(prompt)`: always attempts the HTTP POST; any
raise in the `try` block degrades to mock for that call. -/
def OllamaProvider.analyze (env : Env) (prompt : String) : Json × List Event :=
  match env.ollama_call prompt with
  | CallResult.returns text => (parse_llm_json text, [Event.netOllama])
  | CallResult.raises => ((MockProvider.analyze prompt).1, [Event.netOllama])

/-! ## The selector `analyze_with_llm` -/

/-- Python `str.strip()` on the whitespace characters relevant here. -/
def pyStrip (s : String) : String :=
  String.mk (((s.toList.dropWhile Char.isWhitespace).reverse.dropWhile
    Char.isWhitespace).reverse)

/-- Python `str.lower()` (ASCII range, which covers the model vocabulary). -/
def pyLower (s : String) : String :=
  String.mk (s.toList.map Char.toLower)

/-- `(model_name or "").strip().lower()`. -/
def normalizeModelName (model_name : String) : String :=
  pyLower (pyStrip model_name)

/-- `analyze_with_llm(prompt, model_name, api_key)`: normalize the model
name, dispatch to a provider; hosted branches resolve the credential as
`api_key or os.getenv(VAR, "")` and fall back to mock when it is empty. -/
def analyze_with_llm (env : Env) (prompt model_name api_key : String) :
    Json × List Event :=
  let m := normalizeModelName model_name
  if m = "gpt-4o" then
    let key := if api_key = "" then env.getenv "OPENAI_API_KEY" else api_key
    if key = "" then MockProvider.analyze prompt
    else OpenAIProvider.analyze env key prompt
  else if m = "claude 3.5 sonnet" then
    let key := if api_key = "" then env.getenv "ANTHROPIC_API_KEY" else api_key
    if key = "" then MockProvider.analyze prompt
    else AnthropicProvider.analyze env key prompt
  else if m = "local llama 3" then
    OllamaProvider.analyze env prompt
  else
    MockProvider.analyze prompt

/-! ## Schema predicates -/

/-- The five required keys of an `AnalysisResult`, in the order
`_parse_llm_json` installs them. -/
def requiredKeys : List String :=
  ["summary", "traceability_matrix", "missing_requirements", "suggestions",
   "detailed_analysis"]

/-- A value is a valid `AnalysisResult`: a mapping containing all five
required keys. -/
def isAnalysisResult : Json → Bool
  | Json.obj d => requiredKeys.all (hasKey d)
  | _ => false

/-- The default installed by `_parse_llm_json` for a missing required key. -/
def defaultFor (k : String) : Json :=
  if k = "traceability_matrix" then Json.obj []
  else if k = "missing_requirements" ∨ k = "suggestions" then Json.arr []
  else Json.str ""

/-- The field list of the dict produced by `_parse_llm_json`. -/
def resultFields (text : String) : List (String × Json) :=
  match parse_llm_json text with
  | Json.obj d => d
  | _ => []

/-- The provider variant `analyze_with_llm` dispatches to, mirroring its
`if` chain (used to state claims about adapter selection). -/
inductive ProviderKind where
  | mock : ProviderKind
  | openai : ProviderKind
  | anthropic : ProviderKind
  | ollama : ProviderKind
deriving DecidableEq, Repr

/-- Which adapter `analyze_with_llm` uses for a model name and credential. -/
def selectVariant (getenv : String → String) (model_name api_key : String) :
    ProviderKind :=
  let m := normalizeModelName model_name
  if m = "gpt-4o" then
    if (if api_key = "" then getenv "OPENAI_API_KEY" else api_key) = "" then
      ProviderKind.mock
    else ProviderKind.openai
  else if m = "claude 3.5 sonnet" then
    if (if api_key = "" then getenv "ANTHROPIC_API_KEY" else api_key) = "" then
      ProviderKind.mock
    else ProviderKind.anthropic
  else if m = "local llama 3" then ProviderKind.ollama
  else ProviderKind.mock

/-- Does the string parse (via `json.loads`) to a mapping? -/
def parsesToMapping (text : String) : Bool :=
  match json_loads text with
  | some (Json.obj _) => true
  | _ => false

/-- A concrete world for witnesses: construction always succeeds, every
backend call raises, no environment variable is set. -/
def envAllRaise : Env where
  openai_construct_ok := fun _ => true
  anthropic_construct_ok := fun _ => true
  openai_call := fun _ => CallResult.raises
  anthropic_call := fun _ => CallResult.raises
  ollama_call := fun _ => CallResult.raises
  getenv := fun _ => ""

/-! ## Association-list lemmas -/

theorem hasKey_append (d1 d2 : List (String × Json)) (k : String) :
    hasKey (d1 ++ d2) k = (hasKey d1 k || hasKey d2 k) := by
  simp [hasKey, List.any_append]

theorem setdefault_of_hasKey {d : List (String × Json)} {k : String}
    (v : Json) (h : hasKey d k = true) : setdefault d k v = d := by
  simp [setdefault, h]

theorem hasKey_setdefault_self (d : List (String × Json)) (k : String)
    (v : Json) : hasKey (setdefault d k v) k = true := by
  unfold setdefault
  split
  · assumption
  · simp [hasKey_append, hasKey]

theorem hasKey_setdefault_of {d : List (String × Json)} {k2 : String}
    (k : String) (v : Json) (h : hasKey d k2 = true) :
    hasKey (setdefault d k v) k2 = true := by
  unfold setdefault
  split
  · exact h
  · simp [hasKey_append, h]

theorem hasKey_setdefault_ne {k k2 : String} (d : List (String × Json))
    (v : Json) (h : k ≠ k2) : hasKey (setdefault d k v) k2 = hasKey d k2 := by
  unfold setdefault
  split
  · rfl
  · simp [hasKey_append, hasKey, h]

theorem lookupKey_cons (p : String × Json) (d : List (String × Json))
    (k : String) :
    lookupKey (p :: d) k = if p.1 == k then some p.2 else lookupKey d k := by
  by_cases h : p.1 == k <;> simp [lookupKey, List.find?_cons, h]

theorem lookupKey_append (d1 d2 : List (String × Json)) (k : String) :
    lookupKey (d1 ++ d2) k =
      match lookupKey d1 k with
      | some v => some v
      | none => lookupKey d2 k := by
  induction d1 with
  | nil => simp [lookupKey]
  | cons p rest ih =>
    rw [List.cons_append, lookupKey_cons, lookupKey_cons]
    by_cases h : p.1 == k <;> simp [h, ih]

theorem lookupKey_none_of_not_hasKey {d : List (String × Json)} {k : String}
    (h : hasKey d k = false) : lookupKey d k = none := by
  induction d with
  | nil => rfl
  | cons p rest ih =>
    rw [hasKey, List.any_cons, Bool.or_eq_false_iff] at h
    rw [lookupKey_cons, if_neg (by simp [h.1])]
    exact ih h.2

theorem lookupKey_setdefault_of {d : List (String × Json)} {k2 : String}
    {v2 : Json} (k : String) (v : Json) (h : lookupKey d k2 = some v2) :
    lookupKey (setdefault d k v) k2 = some v2 := by
  unfold setdefault
  split
  · exact h
  · rw [lookupKey_append, h]

theorem lookupKey_setdefault_self {d : List (String × Json)} {k : String}
    (v : Json) (h : hasKey d k = false) :
    lookupKey (setdefault d k v) k = some v := by
  rw [setdefault, if_neg (by simp [h]), lookupKey_append,
    lookupKey_none_of_not_hasKey h, lookupKey_cons]
  simp

theorem lookupKey_setdefault_ne {k k2 : String} (d : List (String × Json))
    (v : Json) (h : k ≠ k2) :
    lookupKey (setdefault d k v) k2 = lookupKey d k2 := by
  unfold setdefault
  split
  · rfl
  · rw [lookupKey_append]
    have h2 : lookupKey [(k, v)] k2 = none := by
      rw [lookupKey_cons, if_neg (by simp [h])]; rfl
    rw [h2]
    cases lookupKey d k2 <;> rfl

theorem mem_setdefault {p : String × Json} {d : List (String × Json)}
    (k : String) (v : Json) (h : p ∈ d) : p ∈ setdefault d k v := by
  unfold setdefault
  split
  · exact h
  · exact List.mem_append_left _ h

/-! ## Lemmas about `ensureRequired` and `parse_llm_json` -/

theorem hasKey_ensureRequired {k : String} (d : List (String × Json))
    (hk : k ∈ requiredKeys) : hasKey (ensureRequired d) k = true := by
  unfold ensureRequired
  simp only [requiredKeys, List.mem_cons, List.not_mem_nil, or_false] at hk
  rcases hk with rfl | rfl | rfl | rfl | rfl
  · exact hasKey_setdefault_of _ _ (hasKey_setdefault_of _ _
      (hasKey_setdefault_of _ _ (hasKey_setdefault_of _ _
        (hasKey_setdefault_self _ _ _))))
  · exact hasKey_setdefault_of _ _ (hasKey_setdefault_of _ _
      (hasKey_setdefault_of _ _ (hasKey_setdefault_self _ _ _)))
  · exact hasKey_setdefault_of _ _ (hasKey_setdefault_of _ _
      (hasKey_setdefault_self _ _ _))
  · exact hasKey_setdefault_of _ _ (hasKey_setdefault_self _ _ _)
  · exact hasKey_setdefault_self _ _ _

theorem allKeys_ensureRequired (d : List (String × Json)) :
    requiredKeys.all (hasKey (ensureRequired d)) = true := by
  rw [List.all_eq_true]
  intro k hk
  exact hasKey_ensureRequired d hk

theorem lookupKey_ensureRequired_of {d : List (String × Json)} {k : String}
    {v : Json} (h : lookupKey d k = some v) :
    lookupKey (ensureRequired d) k = some v :=
  lookupKey_setdefault_of _ _ (lookupKey_setdefault_of _ _
    (lookupKey_setdefault_of _ _ (lookupKey_setdefault_of _ _
      (lookupKey_setdefault_of _ _ h))))

theorem mem_ensureRequired {p : String × Json} {d : List (String × Json)}
    (h : p ∈ d) : p ∈ ensureRequired d :=
  mem_setdefault _ _ (mem_setdefault _ _ (mem_setdefault _ _
    (mem_setdefault _ _ (mem_setdefault _ _ h))))

theorem lookupKey_ensureRequired_default {d : List (String × Json)}
    {k : String} (hk : k ∈ requiredKeys) (h : hasKey d k = false) :
    lookupKey (ensureRequired d) k = some (defaultFor k) := by
  unfold ensureRequired
  simp only [requiredKeys, List.mem_cons, List.not_mem_nil, or_false] at hk
  rcases hk with rfl | rfl | rfl | rfl | rfl
  · rw [show defaultFor "summary" = Json.str "" from rfl]
    exact lookupKey_setdefault_of _ _ (lookupKey_setdefault_of _ _
      (lookupKey_setdefault_of _ _ (lookupKey_setdefault_of _ _
        (lookupKey_setdefault_self _ h))))
  · rw [show defaultFor "traceability_matrix" = Json.obj [] from rfl]
    refine lookupKey_setdefault_of _ _ (lookupKey_setdefault_of _ _
      (lookupKey_setdefault_of _ _ (lookupKey_setdefault_self _ ?_)))
    rw [hasKey_setdefault_ne _ _ (by decide)]
    exact h
  · rw [show defaultFor "missing_requirements" = Json.arr [] from rfl]
    refine lookupKey_setdefault_of _ _ (lookupKey_setdefault_of _ _
      (lookupKey_setdefault_self _ ?_))
    rw [hasKey_setdefault_ne _ _ (by decide),
      hasKey_setdefault_ne _ _ (by decide)]
    exact h
  · rw [show defaultFor "suggestions" = Json.arr [] from rfl]
    refine lookupKey_setdefault_of _ _ (lookupKey_setdefault_self _ ?_)
    rw [hasKey_setdefault_ne _ _ (by decide),
      hasKey_setdefault_ne _ _ (by decide),
      hasKey_setdefault_ne _ _ (by decide)]
    exact h
  · rw [show defaultFor "detailed_analysis" = Json.str "" from rfl]
    refine lookupKey_setdefault_self _ ?_
    rw [hasKey_setdefault_ne _ _ (by decide),
      hasKey_setdefault_ne _ _ (by decide),
      hasKey_setdefault_ne _ _ (by decide),
      hasKey_setdefault_ne _ _ (by decide)]
    exact h

/-- Shape lemma shared by several claims: `_parse_llm_json` always yields a
mapping with the five required keys. -/
theorem parse_llm_json_shape (text : String) :
    ∃ d, parse_llm_json text = Json.obj d ∧
      requiredKeys.all (hasKey d) = true := by
  unfold parse_llm_json
  cases hj : json_loads text with
  | none => exact ⟨_, rfl, rfl⟩
  | some j =>
    cases j with
    | obj d => exact ⟨ensureRequired d, rfl, allKeys_ensureRequired d⟩
    | null => exact ⟨_, rfl, rfl⟩
    | bool b => exact ⟨_, rfl, rfl⟩
    | num s => exact ⟨_, rfl, rfl⟩
    | str s => exact ⟨_, rfl, rfl⟩
    | arr l => exact ⟨_, rfl, rfl⟩

theorem isAnalysisResult_parse_llm_json (text : String) :
    isAnalysisResult (parse_llm_json text) = true := by
  obtain ⟨d, hd, hall⟩ := parse_llm_json_shape text
  rw [hd, isAnalysisResult]
  exact hall

theorem isAnalysisResult_mockResult : isAnalysisResult mockResult = true := by
  decide

/-! ## Claims -/

/-- Claim C1: for every prompt, model name and credential (and every
behavior of the external world), `analyze_with_llm` is total and every
branch returns a valid `AnalysisResult` mapping — no provider construction,
transport, or normalization failure reaches the caller. -/
theorem claim_C1_selector_never_throws (env : Env)
    (prompt model_name api_key : String) :
    isAnalysisResult (analyze_with_llm env prompt model_name api_key).1 = true := by
  unfold analyze_with_llm OpenAIProvider.analyze AnthropicProvider.analyze
    OllamaProvider.analyze MockProvider.analyze
  dsimp only
  repeat' split
  all_goals
    first
      | exact isAnalysisResult_mockResult
      | exact isAnalysisResult_parse_llm_json _

/-- Claim C2: for every input string, `_parse_llm_json` is total and its
result is a mapping containing all five required fields. -/
theorem claim_C2_normalizer_five_fields (text : String) :
    isAnalysisResult (parse_llm_json text) = true ∧
    ∃ d, parse_llm_json text = Json.obj d ∧
      requiredKeys.all (hasKey d) = true :=
  ⟨isAnalysisResult_parse_llm_json text, parse_llm_json_shape text⟩

/-- Claim C3: a model name outside the known vocabulary (after trimming and
case-folding) yields exactly the fixed Mock result, with no client
construction and no network call (empty event trace). -/
theorem claim_C3_unknown_model_mock (env : Env)
    (prompt api_key model_name : String)
    (h : normalizeModelName model_name ∉
      (["gpt-4o", "claude 3.5 sonnet", "local llama 3"] : List String)) :
    analyze_with_llm env prompt model_name api_key = (mockResult, []) := by
  simp only [List.mem_cons, List.not_mem_nil, or_false, not_or] at h
  obtain ⟨h1, h2, h3⟩ := h
  simp only [analyze_with_llm, MockProvider.analyze]
  rw [if_neg h1, if_neg h2, if_neg h3]

theorem claim_C3_witness :
    normalizeModelName "gpt-5" ∉
      (["gpt-4o", "claude 3.5 sonnet", "local llama 3"] : List String) ∧
    analyze_with_llm envAllRaise "p" "gpt-5" "k" = (mockResult, []) :=
  ⟨by decide, claim_C3_unknown_model_mock envAllRaise "p" "k" "gpt-5" (by decide)⟩

/-- Claim C4: a hosted-provider model name with an empty explicit credential
and an unset/empty environment variable yields exactly the Mock result with
no client constructed and no network call. -/
theorem claim_C4_no_credential_mock (env : Env) (prompt : String) :
    (env.getenv "OPENAI_API_KEY" = "" →
      analyze_with_llm env prompt "gpt-4o" "" = (mockResult, [])) ∧
    (env.getenv "ANTHROPIC_API_KEY" = "" →
      analyze_with_llm env prompt "claude 3.5 sonnet" "" = (mockResult, [])) := by
  constructor
  · intro h
    simp only [analyze_with_llm, MockProvider.analyze]
    rw [show normalizeModelName "gpt-4o" = "gpt-4o" from rfl]
    simp [h]
  · intro h
    simp only [analyze_with_llm, MockProvider.analyze]
    rw [show normalizeModelName "claude 3.5 sonnet" = "claude 3.5 sonnet" from rfl]
    simp [h]

theorem claim_C4_witness :
    envAllRaise.getenv "OPENAI_API_KEY" = "" ∧
    envAllRaise.getenv "ANTHROPIC_API_KEY" = "" ∧
    analyze_with_llm envAllRaise "p" "gpt-4o" "" = (mockResult, []) ∧
    analyze_with_llm envAllRaise "p" "claude 3.5 sonnet" "" = (mockResult, []) :=
  ⟨rfl, rfl, (claim_C4_no_credential_mock envAllRaise "p").1 rfl,
    (claim_C4_no_credential_mock envAllRaise "p").2 rfl⟩

/-- Claim C5: a backend call that raises at call time makes that provider's
`analyze` return the Mock result instead of propagating; in particular a
raising local-daemon (Ollama) call yields the Mock result, also through the
selector. -/
theorem claim_C5_transport_failure_mock (env : Env)
    (prompt api_key : String) :
    (env.ollama_call prompt = CallResult.raises →
      (OllamaProvider.analyze env prompt).1 = mockResult) ∧
    (env.openai_call prompt = CallResult.raises →
      (OpenAIProvider.analyze env api_key prompt).1 = mockResult) ∧
    (env.anthropic_call prompt = CallResult.raises →
      (AnthropicProvider.analyze env api_key prompt).1 = mockResult) ∧
    (env.ollama_call prompt = CallResult.raises →
      (analyze_with_llm env prompt "local llama 3" api_key).1 = mockResult) := by
  refine ⟨?_, ?_, ?_, ?_⟩
  · intro h
    simp [OllamaProvider.analyze, h, MockProvider.analyze]
  · intro h
    by_cases hc : env.openai_construct_ok api_key <;>
      simp [OpenAIProvider.analyze, hc, h, MockProvider.analyze]
  · intro h
    by_cases hc : env.anthropic_construct_ok api_key <;>
      simp [AnthropicProvider.analyze, hc, h, MockProvider.analyze]
  · intro h
    simp only [analyze_with_llm]
    rw [show normalizeModelName "local llama 3" = "local llama 3" from rfl]
    simp [OllamaProvider.analyze, h, MockProvider.analyze]

theorem claim_C5_witness :
    envAllRaise.ollama_call "p" = CallResult.raises ∧
    (OllamaProvider.analyze envAllRaise "p").1 = mockResult ∧
    (OpenAIProvider.analyze envAllRaise "k" "p").1 = mockResult ∧
    (AnthropicProvider.analyze envAllRaise "k" "p").1 = mockResult ∧
    (analyze_with_llm envAllRaise "p" "local llama 3" "k").1 = mockResult :=
  ⟨rfl,
    (claim_C5_transport_failure_mock envAllRaise "p" "k").1 rfl,
    (claim_C5_transport_failure_mock envAllRaise "p" "k").2.1 rfl,
    (claim_C5_transport_failure_mock envAllRaise "p" "k").2.2.1 rfl,
    (claim_C5_transport_failure_mock envAllRaise "p" "k").2.2.2 rfl⟩

/-- Claim C6: when the parse fails or yields a non-mapping, the normalizer
returns the fixed degraded result, carrying the raw input verbatim in
`detailed_analysis` and one fixed suggestion. -/
theorem claim_C6_degraded_path (text : String)
    (h : parsesToMapping text = false) :
    parse_llm_json text =
      Json.obj
        [("summary", Json.str "Model returned non-JSON output."),
         ("traceability_matrix", Json.obj []),
         ("missing_requirements", Json.arr []),
         ("suggestions",
          Json.arr [Json.str "Ensure the model is instructed to output strict JSON."]),
         ("detailed_analysis", Json.str text)] := by
  unfold parsesToMapping at h
  unfold parse_llm_json
  cases hj : json_loads text with
  | none => rfl
  | some j =>
    cases j with
    | obj d => rw [hj] at h; simp at h
    | null => rfl
    | bool b => rfl
    | num s => rfl
    | str s => rfl
    | arr l => rfl

theorem claim_C6_witness :
    parsesToMapping "not json at all" = false ∧
    parse_llm_json "not json at all" =
      Json.obj
        [("summary", Json.str "Model returned non-JSON output."),
         ("traceability_matrix", Json.obj []),
         ("missing_requirements", Json.arr []),
         ("suggestions",
          Json.arr [Json.str "Ensure the model is instructed to output strict JSON."]),
         ("detailed_analysis", Json.str "not json at all")] :=
  ⟨rfl, claim_C6_degraded_path "not json at all" rfl⟩

/-- Claim C7: when the parse yields a mapping, each absent required field is
filled with its default and every present field passes through with its
value untouched. -/
theorem claim_C7_fill_defaults (text : String) (d : List (String × Json))
    (h : json_loads text = some (Json.obj d)) :
    parse_llm_json text = Json.obj (ensureRequired d) ∧
    (∀ k v, lookupKey d k = some v →
      lookupKey (ensureRequired d) k = some v) ∧
    (∀ k, k ∈ requiredKeys → hasKey d k = false →
      lookupKey (ensureRequired d) k = some (defaultFor k)) := by
  refine ⟨?_, ?_, ?_⟩
  · unfold parse_llm_json
    rw [h]
  · intro k v hk
    exact lookupKey_ensureRequired_of hk
  · intro k hk hnone
    exact lookupKey_ensureRequired_default hk hnone

theorem claim_C7_witness :
    json_loads "\x7b\"summary\": \"ok\"\x7d" =
      some (Json.obj [("summary", Json.str "ok")]) ∧
    parse_llm_json "\x7b\"summary\": \"ok\"\x7d" =
      Json.obj (ensureRequired [("summary", Json.str "ok")]) ∧
    lookupKey (ensureRequired [("summary", Json.str "ok")]) "summary" =
      some (Json.str "ok") ∧
    lookupKey (ensureRequired [("summary", Json.str "ok")]) "suggestions" =
      some (defaultFor "suggestions") ∧
    lookupKey (ensureRequired [("summary", Json.str "ok")])
      "traceability_matrix" = some (defaultFor "traceability_matrix") := by
  obtain ⟨h1, h2, h3⟩ :=
    claim_C7_fill_defaults "\x7b\"summary\": \"ok\"\x7d"
      [("summary", Json.str "ok")] rfl
  exact ⟨rfl, h1, h2 "summary" (Json.str "ok") rfl,
    h3 "suggestions" (by decide) rfl,
    h3 "traceability_matrix" (by decide) rfl⟩

/-- Claim C8: normalization is the identity on a mapping already containing
all five required fields. -/
theorem claim_C8_idempotent (text : String) (d : List (String × Json))
    (h1 : json_loads text = some (Json.obj d))
    (h2 : requiredKeys.all (hasKey d) = true) :
    parse_llm_json text = Json.obj d := by
  simp only [requiredKeys, List.all_cons, List.all_nil, Bool.and_true,
    Bool.and_eq_true] at h2
  obtain ⟨hs, ht, hm, hg, hd⟩ := h2
  unfold parse_llm_json
  rw [h1]
  show Json.obj (ensureRequired d) = Json.obj d
  unfold ensureRequired
  rw [setdefault_of_hasKey _ hs, setdefault_of_hasKey _ ht,
    setdefault_of_hasKey _ hm, setdefault_of_hasKey _ hg,
    setdefault_of_hasKey _ hd]

theorem claim_C8_witness :
    json_loads "\x7b\"summary\": \"s\", \"traceability_matrix\": \x7b\x7d, \"missing_requirements\": [], \"suggestions\": [], \"detailed_analysis\": \"d\"\x7d" =
      some (Json.obj
        [("summary", Json.str "s"), ("traceability_matrix", Json.obj []),
         ("missing_requirements", Json.arr []), ("suggestions", Json.arr []),
         ("detailed_analysis", Json.str "d")]) ∧
    parse_llm_json "\x7b\"summary\": \"s\", \"traceability_matrix\": \x7b\x7d, \"missing_requirements\": [], \"suggestions\": [], \"detailed_analysis\": \"d\"\x7d" =
      Json.obj
        [("summary", Json.str "s"), ("traceability_matrix", Json.obj []),
         ("missing_requirements", Json.arr []), ("suggestions", Json.arr []),
         ("detailed_analysis", Json.str "d")] :=
  ⟨rfl, claim_C8_idempotent _ _ rfl rfl⟩

/-- Claim C9: model-name matching is invariant under case and surrounding
whitespace: names equal after trim + case-fold select the same adapter and
produce identical calls. -/
theorem claim_C9_case_insensitive (env : Env)
    (prompt api_key m1 m2 : String)
    (h : normalizeModelName m1 = normalizeModelName m2) :
    selectVariant env.getenv m1 api_key = selectVariant env.getenv m2 api_key ∧
    analyze_with_llm env prompt m1 api_key =
      analyze_with_llm env prompt m2 api_key := by
  constructor
  · simp only [selectVariant, h]
  · simp only [analyze_with_llm, h]

theorem claim_C9_witness :
    normalizeModelName "GPT-4o" = normalizeModelName "gpt-4o" ∧
    selectVariant envAllRaise.getenv "GPT-4o" "x" =
      selectVariant envAllRaise.getenv "gpt-4o" "x" ∧
    analyze_with_llm envAllRaise "p" "GPT-4o" "x" =
      analyze_with_llm envAllRaise "p" "gpt-4o" "x" :=
  ⟨rfl,
    (claim_C9_case_insensitive envAllRaise "p" "x" "GPT-4o" "gpt-4o" rfl).1,
    (claim_C9_case_insensitive envAllRaise "p" "x" "GPT-4o" "gpt-4o" rfl).2⟩

/-- Claim C10: on the successful parse path no key is removed or renamed:
every key-value pair of the parsed mapping, including keys outside the
five-field schema, appears unchanged in the normalizer's output. -/
theorem claim_C10_no_key_dropped (text : String) (d : List (String × Json))
    (h : json_loads text = some (Json.obj d)) :
    ∀ p, p ∈ d → p ∈ resultFields text := by
  intro p hp
  unfold resultFields parse_llm_json
  rw [h]
  exact mem_ensureRequired hp

theorem claim_C10_witness :
    json_loads "\x7b\"extra\": 1, \"summary\": \"s\"\x7d" =
      some (Json.obj [("extra", Json.num "1"), ("summary", Json.str "s")]) ∧
    ("extra", Json.num "1") ∈ resultFields "\x7b\"extra\": 1, \"summary\": \"s\"\x7d" :=
  ⟨rfl,
    claim_C10_no_key_dropped "\x7b\"extra\": 1, \"summary\": \"s\"\x7d"
      [("extra", Json.num "1"), ("summary", Json.str "s")] rfl
      ("extra", Json.num "1") (List.Mem.head _)⟩

end CodeAnalysis

